import Mathlib

/-!
Verification of the ClinicalRxQ member-portal data layer.

This file gives a shallow embedding, in Lean 4, of the query-translation,
record-normalization, pagination, authentication and facade-dispatch logic
of the repository (the Airtable client `src/services/api/airtable.ts`, the
proxy server, and the API facade), and proves or refutes the frozen
specification claims about it.

Conventions of the embedding:
- JavaScript strings are Lean `String`; absent (`undefined`/`null`) values
  are `Option`; the `a || b` idiom on strings is `jsOrD`/`jsOrO` below
  (empty string counts as falsy, exactly as in JS).
- JavaScript numbers appearing here are byte sizes, counts and rounded
  megabyte figures; they are modelled as `ℚ` (division by 2^20 is exact in
  binary floating point for integer byte sizes, and `toFixed(2)` is the
  decimal rounding `round2` below).
- Fallible code returns `Except ApiErr`; `throw new ApiError(...)` is
  `.error ⟨...⟩`.
- The network is an explicit script of responses consumed in order;
  `localStorage` cells are explicit state threaded through step functions.
-/

/-- Error value mirroring the `ApiError` class (message, HTTP status, code). -/
structure ApiErr where
  message : String
  status : Option Nat
  code : Option String
deriving DecidableEq, Repr

/-- JS truthiness of an optional string: `undefined`/`null` and `''` are falsy. -/
def truthyS : Option String → Bool
  | none => false
  | some s => s ≠ ""

/-- JS truthiness of an optional number: absent and `0` are falsy. -/
def truthyQ : Option ℚ → Bool
  | none => false
  | some q => q ≠ 0

/-- `String.prototype.toLowerCase()` (character-wise lower-casing). -/
def lowerStr (s : String) : String := ⟨s.data.map Char.toLower⟩

/-- `String.prototype.trim()`: strip leading and trailing whitespace. -/
def trimStr (s : String) : String :=
  ⟨(((s.data.dropWhile Char.isWhitespace).reverse.dropWhile Char.isWhitespace).reverse)⟩

deriving instance DecidableEq for Except

/-- The JS idiom `a || d` producing a string: first truthy operand, else the
literal default `d`. -/
def jsOrD (a : Option String) (d : String) : String :=
  match a with
  | some s => if s ≠ "" then s else d
  | none => d

/-- The JS idiom `a || b` kept optional: `b` is returned as-is (possibly
absent) when `a` is falsy. -/
def jsOrO (a b : Option String) : Option String :=
  if truthyS a then a else b

/-- The JS idiom `a || d` on a string already coerced (returns `a` when
non-empty, else `d`). -/
def jsStrOr (a d : String) : String :=
  if a ≠ "" then a else d

/-- The JS idiom `a || d` on numbers with a literal default. -/
def jsQOr (a : Option ℚ) (d : ℚ) : ℚ :=
  match a with
  | some q => if q ≠ 0 then q else d
  | none => d

/-- The JS idiom `a || undefined` on numbers. -/
def jsQOrO (a : Option ℚ) : Option ℚ :=
  if truthyQ a then a else none

/-- `toFixed(2)` rounding of the source, as a rational: round to the nearest
hundredth, ties away from zero for nonnegative inputs. -/
def round2 (q : ℚ) : ℚ :=
  ((⌊q * 100 + 1 / 2⌋ : ℤ) : ℚ) / 100

/-! ## Quote escaping (`search.replace(/'/g, "\\'")` in the query builder and
in `authenticateMember`) -/

/-- Character-level transcription of `replace(/'/g, "\\'")`: every single
quote is replaced by backslash-quote; all other characters pass through. -/
def escList : List Char → List Char
  | [] => []
  | c :: rest => if c = '\x27' then '\\' :: '\x27' :: escList rest else c :: escList rest

/-- Modelled from the spec: the inverse transformation used "for display"
(the repository never un-escapes; the spec's round-trip property needs the
canonical un-escaper, which rewrites each backslash-quote pair back to a
quote, left to right). -/
def unescList : List Char → List Char
  | [] => []
  | [c] => [c]
  | a :: b :: rest =>
    if a = '\\' ∧ b = '\x27' then b :: unescList rest
    else a :: unescList (b :: rest)

/-- Well-formedness of an escaped fragment destined for a single-quoted
formula literal: no quote character occurs except immediately after a
backslash, so the fragment cannot terminate the literal early. -/
def quotesOk : List Char → Bool
  | [] => true
  | [c] => c ≠ '\x27'
  | a :: b :: rest =>
    if a = '\\' ∧ b = '\x27' then quotesOk rest
    else a ≠ '\x27' && quotesOk (b :: rest)

/-- String form of the quote escaping applied to search terms and e-mail
literals before embedding them in a filter formula. -/
def escapeQuotes (s : String) : String := ⟨escList s.data⟩

/-- Modelled from the spec: string form of the un-escaper. -/
def unescapeQuotes (s : String) : String := ⟨unescList s.data⟩

/-! ## The proxy server's query builder (`buildResourceFilterFormula`) -/

/-- The recognized filter inputs of the `/api/resources` route, each an
optional query-string value (`q.get(...)` yields `null` for a missing key,
modelled as `none`). -/
structure ResourceQuery where
  program : Option String
  type : Option String
  bookmarked : Option String
  search : Option String
deriving DecidableEq, Repr

/-- `Array.prototype.join(',')`. -/
def joinComma : List String → String
  | [] => ""
  | [s] => s
  | s :: rest => s ++ "," ++ joinComma rest

/-- The free-text clause pushed by the query builder for a (already escaped)
search term, transcribed from the source. -/
def searchClause (term : String) : String :=
  "OR(" ++
    "FIND(LOWER(\x27" ++ term ++ "\x27), LOWER(\x7bDisplayName\x7d&\x27 \x27&ARRAYJOIN(\x7bTags\x7d)&\x27 \x27&\x7bCategory\x7d))>0," ++
    "FIND(LOWER(\x27" ++ term ++ "\x27), LOWER(\x7bName\x7d&\x27 \x27&\x7bTitle\x7d))>0" ++
  ")"

/-- The boolean clauses contributed by the active filters, in the order the
source pushes them (program, type, bookmarked, search). -/
def filterParts (q : ResourceQuery) : List String :=
  (if truthyS q.program then ["\x7bProgram\x7d = \x27" ++ q.program.getD "" ++ "\x27"] else []) ++
  (if truthyS q.type then ["\x7bResourceType\x7d = \x27" ++ q.type.getD "" ++ "\x27"] else []) ++
  (if q.bookmarked = some "true" then ["\x7bIsBookmarked\x7d = TRUE()"] else []) ++
  (if truthyS q.search then [searchClause (escapeQuotes (q.search.getD ""))] else [])

/-- `buildResourceFilterFormula`: no clause yields no formula, a single
clause is emitted bare, two or more are joined under `AND(...)`. -/
def buildResourceFilterFormula (q : ResourceQuery) : Option String :=
  match filterParts q with
  | [] => none
  | [c] => some c
  | parts => some ("AND(" ++ joinComma parts ++ ")")

/-! ## Attachments and the two first-attachment helpers -/

/-- One element of an Airtable attachment list; `url` and `size` may each be
absent (field presence is never guaranteed on external records). -/
structure Attachment where
  url : Option String
  size : Option ℚ
deriving DecidableEq, Repr

/-- `firstAttachment` from the Airtable client: non-array or empty input
yields `{ url: '' }`; otherwise the first element's url (or `''`) and, when
its byte size is truthy, the size in MB rounded to two decimals. `none` on
the input models a missing or non-array field value. -/
def firstAttachment (list : Option (List Attachment)) : String × Option ℚ :=
  match list with
  | some (att :: _) =>
    let url := if truthyS att.url then att.url.getD "" else ""
    let size : ℚ := if truthyQ att.size then att.size.getD 0 else 0
    (url, if size ≠ 0 then some (round2 (size / (1024 * 1024))) else none)
  | _ => ("", none)

/-- `firstAttachmentUrl` from the proxy server: the first attachment's url
when the field is an array with a truthy first url, else `undefined`. -/
def firstAttachmentUrl (file : Option (List Attachment)) : Option String :=
  match file with
  | some (att :: _) => if truthyS att.url then some (att.url.getD "") else none
  | _ => none

/-! ## The proxy server's record mappers (`mapProgram`, `mapResource`,
`mapAnnouncement`, `mapQuickAccess`)

Each external record is an id, a created timestamp, and a field bag in which
every field is optional. The bags below carry exactly the fields each mapper
reads, each `Option`-typed since presence is never guaranteed. -/

/-- Fields read by `mapProgram`. -/
structure ProgFields where
  slug : Option String
  code : Option String
  name : Option String
  description : Option String
  summary : Option String
  icon : Option String
  resourceCount : Option ℚ
  resources : Option (List String)
  lastUpdatedISO : Option String
  updatedISO : Option String
  downloadCount : Option ℚ
deriving DecidableEq, Repr

/-- Fields read by `mapResource`. -/
structure ResFields where
  displayName : Option String
  name : Option String
  title : Option String
  program : Option String
  programCode : Option String
  resourceType : Option String
  type : Option String
  category : Option String
  tags : Option (List String)
  file : Option (List Attachment)
  url : Option String
  link : Option String
  sizeMB : Option ℚ
  lastUpdatedISO : Option String
  updatedISO : Option String
  downloadCount : Option ℚ
  isBookmarked : Option Bool
deriving DecidableEq, Repr

/-- Fields read by `mapAnnouncement`. -/
structure AnnFields where
  title : Option String
  body : Option String
  content : Option String
  dateISO : Option String
  type : Option String
deriving DecidableEq, Repr

/-- Fields read by `mapQuickAccess`. -/
structure QAFields where
  title : Option String
  name : Option String
  subtitle : Option String
  icon : Option String
  cta : Option String
  resourceId : Option String
deriving DecidableEq, Repr

/-- A well-formed external record: id, created timestamp, field bag. -/
structure ExternalRecord (F : Type) where
  id : String
  createdTime : String
  fields : F
deriving DecidableEq, Repr

/-- Output shape of `mapProgram` (no id is emitted by the source). -/
structure MappedProgram where
  slug : String
  name : String
  description : String
  icon : String
  resourceCount : ℚ
  lastUpdatedISO : String
  downloadCount : ℚ
deriving DecidableEq, Repr

/-- Output shape of `mapResource`. -/
structure MappedResource where
  id : String
  name : String
  program : String
  type : String
  category : String
  tags : List String
  fileUrl : Option String
  sizeMB : Option ℚ
  lastUpdatedISO : String
  downloadCount : ℚ
  bookmarked : Bool
deriving DecidableEq, Repr

/-- Output shape of `mapAnnouncement`. -/
structure MappedAnnouncement where
  id : String
  title : String
  body : String
  dateISO : String
  type : Option String
deriving DecidableEq, Repr

/-- Output shape of `mapQuickAccess`. -/
structure MappedQuickAccess where
  id : String
  title : String
  subtitle : String
  icon : String
  cta : String
  resourceId : Option String
deriving DecidableEq, Repr

/-- `mapProgram`: every field falls back through its `||` chain to a literal
default (or to the record's created timestamp for the last-updated field). -/
def mapProgram (r : ExternalRecord ProgFields) : MappedProgram :=
  let f := r.fields
  { slug := jsOrD f.slug (jsOrD f.code "program")
    name := jsOrD f.name "Clinical Program"
    description := jsOrD f.description (jsOrD f.summary "")
    icon := jsOrD f.icon "Layers"
    resourceCount := jsQOr f.resourceCount (jsQOr (some ((f.resources.getD []).length : ℚ)) 0)
    lastUpdatedISO := jsOrD f.lastUpdatedISO (jsOrD f.updatedISO r.createdTime)
    downloadCount := jsQOr f.downloadCount 0 }

/-- `mapResource`. -/
def mapResource (r : ExternalRecord ResFields) : MappedResource :=
  let f := r.fields
  { id := r.id
    name := jsOrD f.displayName (jsOrD f.name (jsOrD f.title "Resource"))
    program := jsOrD f.program (jsOrD f.programCode "general")
    type := jsOrD f.resourceType (jsOrD f.type "Additional Resources")
    category := jsOrD f.category ""
    tags := f.tags.getD []
    fileUrl := jsOrO (firstAttachmentUrl f.file) (jsOrO f.url f.link)
    sizeMB :=
      match f.file with
      | some (att :: _) =>
        if truthyQ att.size then some (round2 (att.size.getD 0 / (1024 * 1024)))
        else jsQOrO f.sizeMB
      | _ => jsQOrO f.sizeMB
    lastUpdatedISO := jsOrD f.lastUpdatedISO (jsOrD f.updatedISO r.createdTime)
    downloadCount := jsQOr f.downloadCount 0
    bookmarked := f.isBookmarked.getD false }

/-- `mapAnnouncement`. -/
def mapAnnouncement (r : ExternalRecord AnnFields) : MappedAnnouncement :=
  let f := r.fields
  { id := r.id
    title := jsOrD f.title "Announcement"
    body := jsOrD f.body (jsOrD f.content "")
    dateISO := jsOrD f.dateISO r.createdTime
    type := jsOrO f.type none }

/-- `mapQuickAccess`. -/
def mapQuickAccess (r : ExternalRecord QAFields) : MappedQuickAccess :=
  let f := r.fields
  { id := r.id
    title := jsOrD f.title (jsOrD f.name "Quick Access")
    subtitle := jsOrD f.subtitle ""
    icon := jsOrD f.icon "File"
    cta := jsOrD f.cta "Download"
    resourceId := jsOrO f.resourceId none }

/-- A program field bag with every optional field missing. -/
def emptyProgFields : ProgFields := ⟨none, none, none, none, none, none, none, none, none, none, none⟩

/-- A resource field bag with every optional field missing. -/
def emptyResFields : ResFields :=
  ⟨none, none, none, none, none, none, none, none, none, none, none, none, none, none, none, none, none⟩

/-- An announcement field bag with every optional field missing. -/
def emptyAnnFields : AnnFields := ⟨none, none, none, none, none⟩

/-- A quick-access field bag with every optional field missing. -/
def emptyQAFields : QAFields := ⟨none, none, none, none, none, none⟩

/-! ## The Airtable client's paginated fetcher (`AirtableService.getRecords`)

The loop repeatedly issues a request carrying the current continuation
token, handles HTTP 429 by sleeping the advised delay and retrying the same
request, raises a typed error on any other failure, and otherwise appends
the page's records and continues while the response carries a (truthy)
continuation token. The network is a script of responses consumed in
arrival order; the function also returns the log of requests issued (the
continuation token echoed on each) and of sleeps performed (milliseconds).
`none` is returned when the script is exhausted while the loop still wants
to issue a request. -/

/-- One record as returned by the Airtable REST API. -/
structure AirRec where
  id : String
  createdTime : String
deriving DecidableEq, Repr

/-- One page response of the list endpoint: records plus an optional
continuation token (`offset`). -/
structure PageOk where
  records : List AirRec
  offset : Option String
deriving DecidableEq, Repr

/-- A scripted HTTP response: success, or a failure carrying the HTTP
status, the parsed `Retry-After` value when present, and the optional
provider error message and type. -/
inductive AirResp where
  | success (p : PageOk)
  | failure (status : Nat) (retryAfter : Option Nat) (errMsg : Option String) (errType : Option String)
deriving DecidableEq, Repr

/-- Accumulated effect log of one `getRecords` call. -/
structure FetchLog where
  requests : List (Option String)
  sleepsMs : List Nat
deriving DecidableEq, Repr

/-- The do-while pagination loop body, recursing over the response script. -/
def getRecordsGo (off : Option String) :
    List AirResp → List AirRec → Option (Except ApiErr (List AirRec) × FetchLog)
  | [], _ => none
  | .failure s ra msg ty :: rest, acc =>
    if s = 429 then
      match getRecordsGo off rest acc with
      | none => none
      | some (res, log) => some (res, ⟨off :: log.requests, (ra.getD 1) * 1000 :: log.sleepsMs⟩)
    else
      some (.error ⟨jsOrD msg ("Airtable error " ++ toString s), some s, ty⟩, ⟨[off], []⟩)
  | .success p :: rest, acc =>
    if truthyS p.offset then
      match getRecordsGo p.offset rest (acc ++ p.records) with
      | none => none
      | some (res, log) => some (res, ⟨off :: log.requests, log.sleepsMs⟩)
    else
      some (.ok (acc ++ p.records), ⟨[off], []⟩)

/-- `getRecords`: configuration is checked before any request; the loop then
starts with no continuation token and an empty accumulator. -/
def getRecords (apiKey : Option String) (script : List AirResp) :
    Option (Except ApiErr (List AirRec) × FetchLog) :=
  if ¬ truthyS apiKey then
    some (.error ⟨"AIRTABLE_API_KEY is not set", some 500, some "CONFIG_ERROR"⟩, ⟨[], []⟩)
  else getRecordsGo none script []

/-! ## The Airtable client's member authentication
(`AirtableService.authenticateMember`)

The client sends `filterByFormula = LOWER({Email Address})='<literal>'` with
`maxRecords = 1`, where the literal is the supplied e-mail trimmed,
lower-cased and quote-escaped. Evaluated on the server, that formula selects
the first record (in table order) whose lower-cased stored e-mail equals the
trimmed, lower-cased supplied e-mail; `findMember` embeds exactly that
lookup. Member-table fields are Airtable text fields, modelled as optional
strings coerced through the source's `String(f[...] || '')`. -/

/-- A stored member record (id, created time, and the five text fields the
source reads, each possibly absent). -/
structure MemberRec where
  id : String
  createdTime : String
  email : Option String
  tempPassword : Option String
  pharmacyName : Option String
  subscriptionStatus : Option String
  lastActivity : Option String
deriving DecidableEq, Repr

/-- The normalized account returned on successful authentication. -/
structure MemberAccount where
  id : String
  pharmacyName : String
  email : String
  subscriptionStatus : String
  lastLoginISO : String
deriving DecidableEq, Repr

/-- Server-side evaluation of the login lookup formula over the member
table: first record whose stored e-mail matches the trimmed lower-cased
supplied e-mail case-insensitively (`maxRecords=1` keeps only the first). -/
def findMember (table : List MemberRec) (email : String) : Option MemberRec :=
  table.find? (fun r => lowerStr (r.email.getD "") = lowerStr (trimStr email))

/-- The 401 error raised by `authenticateMember` on a failed lookup. -/
def invalidCredErr : ApiErr := ⟨"Invalid email or password", some 401, some "INVALID_CREDENTIALS"⟩

/-- The normalized `MemberAccount` built from a matched record (the
`new Date().toISOString()` fallback is the explicit `nowISO` argument). -/
def normMember (r : MemberRec) (email nowISO : String) : MemberAccount :=
  { id := r.id
    pharmacyName := r.pharmacyName.getD ""
    email := jsOrD r.email email
    subscriptionStatus := jsOrD r.subscriptionStatus "Active"
    lastLoginISO := jsOrD r.lastActivity (jsStrOr r.createdTime nowISO) }

/-- Modelled from the spec: the source file is truncated inside
`authenticateMember` (the function body ends after the success branch, the
password-mismatch `throw` and the closing brace are missing from `src`), so
the final branch below — raising `INVALID_CREDENTIALS` with HTTP 401 on a
password mismatch — follows the spec's words; every other branch (the
configuration guard, the formula lookup, the not-found error, the
`tempPass && password === tempPass` success condition and the account
normalization) is transcribed from the source. -/
def authenticateMember (apiKey : Option String) (table : List MemberRec)
    (nowISO email password : String) : Except ApiErr MemberAccount :=
  if ¬ truthyS apiKey then
    .error ⟨"AIRTABLE_API_KEY is not set", some 500, some "CONFIG_ERROR"⟩
  else
    match findMember table email with
    | none => .error invalidCredErr
    | some r =>
      let tempPass := r.tempPassword.getD ""
      if tempPass ≠ "" ∧ password = tempPass then .ok (normMember r email nowISO)
      else .error invalidCredErr

/-! ## The Airtable client's resource aggregation: per-table mapping and the
client-side filter/sort of `AirtableService.getResources` -/

/-- The unified resource view model (`ResourceItem` of the type layer; the
optional `program` is the empty string when absent, which never arises from
the client's own mappers since `'' || 'general'` yields `"general"`). -/
structure ResourceItem where
  id : String
  name : String
  program : String
  type : String
  category : Option String
  tags : Option (List String)
  fileUrl : Option String
  sizeMB : Option ℚ
  lastUpdatedISO : Option String
  downloadCount : Option ℚ
  bookmarked : Bool
deriving DecidableEq, Repr

/-- Fields of a DocumentationForms record read by the forms branch of
`getResources`. -/
structure FormsFields where
  formName : Option String
  programSlug : Option String
  formCategory : Option String
  formLink : Option String
  formFile : Option (List Attachment)
deriving DecidableEq, Repr

/-- The forms branch of `getResources`: maps one DocumentationForms record
to a `ResourceItem` (fixed type `"Documentation Forms"`, link preferred over
the first attachment's url). -/
def mapFormsItem (r : ExternalRecord FormsFields) : ResourceItem :=
  let f := r.fields
  let link := f.formLink.getD ""
  let fa := firstAttachment f.formFile
  { id := r.id
    name := jsOrD f.formName "Form"
    program := jsStrOr (lowerStr (f.programSlug.getD "")) "general"
    type := "Documentation Forms"
    category := some (f.formCategory.getD "")
    tags := none
    fileUrl := some (jsStrOr link fa.1)
    sizeMB := fa.2
    lastUpdatedISO := some r.createdTime
    downloadCount := none
    bookmarked := false }

/-- A filter value that may be a scalar or an array, mirroring
`Array.isArray(filters.x)` dispatch (`[]` is truthy in JS, `''` is not). -/
inductive StrOrList where
  | one (s : String)
  | many (l : List String)
deriving DecidableEq, Repr

/-- JS truthiness of a scalar-or-array filter value. -/
def truthySOL : StrOrList → Bool
  | .one s => s ≠ ""
  | .many _ => true

/-- The `wanted` list of lower-cased program slugs. -/
def wantedPrograms : StrOrList → List String
  | .one s => [lowerStr s]
  | .many l => l.map lowerStr

/-- The type filter's membership list (no lower-casing in the source). -/
def typeList : StrOrList → List String
  | .one s => [s]
  | .many l => l

/-- The filter/sort options `getResources` actually consumes. -/
structure GetResourcesFilters where
  program : Option StrOrList
  type : Option StrOrList
  search : Option String
  sortBy : Option String
  sortOrder : Option String
deriving DecidableEq, Repr

/-- The program-filter predicate: items with a program slug match by
lower-cased membership, untagged items match the literal `"general"`. -/
def programPass (wanted : List String) (it : ResourceItem) : Bool :=
  if it.program ≠ "" then wanted.contains (lowerStr it.program) else wanted.contains "general"

/-- Whether `needle` occurs contiguously in `hay` (char-list form of
`String.prototype.includes`). -/
def startsSeq : List Char → List Char → Bool
  | [], _ => true
  | _ :: _, [] => false
  | a :: as, b :: bs => a = b && startsSeq as bs

/-- Substring occurrence used by the free-text filter. -/
def hasSeq (needle : List Char) : List Char → Bool
  | [] => startsSeq needle []
  | c :: t => startsSeq needle (c :: t) || hasSeq needle t

/-- `it.name.toLowerCase().includes(q)` for a lower-cased search term. -/
def searchPass (q : String) (it : ResourceItem) : Bool :=
  hasSeq q.data (lowerStr it.name).data

/-- The three client-side filters of `getResources`, applied in source
order: program (scalar-or-set, case-insensitive, absent matches
`"general"`), type (set membership), free-text (substring on the name,
case-insensitive). -/
def applyFilters (fl : GetResourcesFilters) (items : List ResourceItem) : List ResourceItem :=
  let s1 :=
    match fl.program with
    | some p => if truthySOL p then items.filter (programPass (wantedPrograms p)) else items
    | none => items
  let s2 :=
    match fl.type with
    | some t => if truthySOL t then s1.filter (fun it => (typeList t).contains it.type) else s1
    | none => s1
  match fl.search with
  | some q => if q ≠ "" then s2.filter (searchPass (lowerStr q)) else s2
  | none => s2

/-- A sort key extracted by the comparator: a string or a number, depending
on the requested sort field. -/
inductive SKey where
  | str (s : String)
  | num (q : ℚ)
deriving DecidableEq, Repr

/-- The `aVal`/`bVal` computation of the comparator: name, last-updated
(empty default), download count (zero default), category (empty default),
anything else falls back to the name. -/
def keyOf (sortBy : String) (a : ResourceItem) : SKey :=
  if sortBy = "name" then .str a.name
  else if sortBy = "lastUpdated" then .str (jsOrD a.lastUpdatedISO "")
  else if sortBy = "downloadCount" then .num (jsQOr a.downloadCount 0)
  else if sortBy = "category" then .str (jsOrD a.category "")
  else .str a.name

/-- The `<` relation of the comparator (same-kind keys compare by their
order; the mixed cases never arise for a fixed sort field). -/
def skLT : SKey → SKey → Bool
  | .str a, .str b => a < b
  | .num a, .num b => a < b
  | _, _ => false

/-- The comparator of `getResources` (`sortOrder` is `1` for ascending,
`-1` for descending). -/
def cmpItems (sortBy : String) (ord : Int) (a b : ResourceItem) : Int :=
  if skLT (keyOf sortBy a) (keyOf sortBy b) then -1 * ord
  else if skLT (keyOf sortBy b) (keyOf sortBy a) then 1 * ord
  else 0

/-- The "`a` may precede `b`" relation induced by the comparator; a stable
sort under this relation is exactly what ECMAScript's `Array.prototype.sort`
(stable since ES2019) produces for this comparator. -/
def sortLE (sortBy : String) (ord : Int) (a b : ResourceItem) : Bool :=
  cmpItems sortBy ord a b ≤ 0

/-- The resolved sort field: `filters.sortBy || 'name'`. -/
def resolvedSortBy (fl : GetResourcesFilters) : String := jsOrD fl.sortBy "name"

/-- The resolved direction: `(filters.sortOrder || 'asc') === 'asc' ? 1 : -1`. -/
def resolvedOrd (fl : GetResourcesFilters) : Int :=
  if jsOrD fl.sortOrder "asc" = "asc" then 1 else -1

/-- The comparator expression over one ordered key type (shared shape of the
string-key and numeric-key cases of `cmpItems`). -/
def cmpOrd {B : Type} [LinearOrder B] (ord : Int) (x y : B) : Int :=
  if x < y then -1 * ord else if y < x then 1 * ord else 0

/-- The pure tail of `getResources`: client-side filtering followed by the
stable comparator sort of the filtered items. -/
def getResourcesPure (fl : GetResourcesFilters) (items : List ResourceItem) : List ResourceItem :=
  (applyFilters fl items).mergeSort (sortLE (resolvedSortBy fl) (resolvedOrd fl))

/-! ## The API facade: login attempt counter (`realLogin`) and data-source
dispatch (`Api.getResources` and friends) -/

/-- The 429 error raised by the facade's client-local attempt gate. -/
def rateLimitErr : ApiErr := ⟨"Too many attempts. Please try again later.", some 429, some "RATE_LIMIT"⟩

/-- The facade's successful login payload. -/
structure AuthResp where
  token : String
  member : MemberAccount
deriving DecidableEq, Repr

/-- One `realLogin` call: reads the attempt counter from local storage;
at 5 or more failures the call is rejected with `RATE_LIMIT` before the
backend is contacted; otherwise the backend's authentication outcome either
succeeds (counter reset to 0) or fails (counter incremented, error
rethrown). Returns the result, the new counter, and whether the backend was
contacted. -/
def loginStep (attempts : Nat) (auth : Except ApiErr MemberAccount) :
    Except ApiErr AuthResp × Nat × Bool :=
  if attempts ≥ 5 then (.error rateLimitErr, attempts, false)
  else
    match auth with
    | .ok m => (.ok ⟨"real-jwt-token", m⟩, 0, true)
    | .error e => (.error e, attempts + 1, true)

/-- A sequence of login attempts through the facade, threading the
client-local attempt counter; each attempt is represented by the outcome
the backend would report for its credentials. -/
def runLogins (attempts : Nat) : List (Except ApiErr MemberAccount) → List (Except ApiErr AuthResp × Bool)
  | [] => []
  | a :: rest =>
    let step := loginStep attempts a
    (step.1, step.2.2) :: runLogins step.2.1 rest

/-- The proxy server's configuration error
(`Object.assign(new Error('Airtable not configured'), {status: 500, code: 'CONFIG_ERROR'})`). -/
def configErrServer : ApiErr := ⟨"Airtable not configured", some 500, some "CONFIG_ERROR"⟩

/-- The Airtable client's configuration error. -/
def configErrEnv : ApiErr := ⟨"AIRTABLE_API_KEY is not set", some 500, some "CONFIG_ERROR"⟩

/-- The proxy server's `airtableRequest`: both environment values must be
truthy before any request is attempted; an upstream failure (status, parsed
error message and type) becomes a typed error with the provider code
preserved (`AIRTABLE_ERROR` default). -/
def airtableRequest {α : Type} (apiKey baseId : Option String)
    (resp : Except (Nat × Option String × Option String) α) : Except ApiErr α :=
  if ¬ (truthyS apiKey && truthyS baseId) then .error configErrServer
  else
    match resp with
    | .ok v => .ok v
    | .error (s, msg, ty) =>
      .error ⟨jsOrD msg ("Airtable request failed: " ++ toString s), some s, some (jsOrD ty "AIRTABLE_ERROR")⟩

/-- The facade's compile-time mock flag (`const USE_MOCK = false`). -/
def USE_MOCK : Bool := false

/-- Modelled from the spec: the static fallback dataset (`mockData`) is not
among the provided sources, so the mock resource list is a parameter; the
dispatch itself is transcribed from `Api.getResources`: forced mock, else
the real Airtable call when the environment is configured, else the mock
dataset. -/
def apiGetResources (configured : Bool) (real : Except ApiErr (List ResourceItem))
    (mock : List ResourceItem) : Except ApiErr (List ResourceItem) :=
  if USE_MOCK then .ok mock
  else if configured then real
  else .ok mock

/-! ## Concrete sample values used by counterexamples and witnesses -/

/-- A member record whose stored temporary password is the empty string. -/
def recEmptyTemp : MemberRec :=
  ⟨"rec1", "2024-01-01T00:00:00.000Z", some "a@b.com", some "", some "Ph", some "Active", none⟩

/-- A member record with stored e-mail `a@b.com` and temporary password
`pw123456`. -/
def recPw : MemberRec :=
  ⟨"rec2", "2024-01-01T00:00:00.000Z", some "a@b.com", some "pw123456", some "Ph", some "Active",
    some "2024-02-02T00:00:00.000Z"⟩

/-- A sample authenticated member account. -/
def m0 : MemberAccount := ⟨"rec2", "Ph", "a@b.com", "Active", "2024-02-02T00:00:00.000Z"⟩

/-- A sample backend error. -/
def e0 : ApiErr := invalidCredErr

/-- A DocumentationForms record with every optional field missing. -/
def emptyFormsRec : ExternalRecord FormsFields := ⟨"recF", "2024-01-02", ⟨none, none, none, none, none⟩⟩

/-- A query with two active filters (program and type). -/
def q2 : ResourceQuery := ⟨some "tmm", some "Protocols", none, none⟩

/-- Sample resource items sharing one name (used to exercise stability). -/
def itemA : ResourceItem :=
  ⟨"idA", "Same Name", "tmm", "Protocols", none, none, none, none, some "2024", none, false⟩

/-- Second sample item with the same name as `itemA` but a distinct id. -/
def itemB : ResourceItem :=
  ⟨"idB", "Same Name", "tmm", "Protocols", none, none, none, none, some "2023", none, false⟩

/-- Sample mock resource item for the facade dispatch. -/
def item0 : ResourceItem :=
  ⟨"m1", "Mock Resource", "general", "Additional Resources", none, none, none, none, none, none, false⟩

/-- The no-filter, default-sort option bag. -/
def fl0 : GetResourcesFilters := ⟨none, none, none, none, none⟩

/-- A first page carrying a continuation token. -/
def page1 : PageOk := ⟨[⟨"r1", "t1"⟩, ⟨"r2", "t2"⟩], some "tok1"⟩

/-- A final page without a continuation token. -/
def page2 : PageOk := ⟨[⟨"r3", "t3"⟩], none⟩

/-! # Theorems -/

/-! ## C6 — quote escaping -/

theorem escList_eq_nil (l : List Char) (h : escList l = []) : l = [] := by
  cases l with
  | nil => rfl
  | cons c rest =>
    simp only [escList] at h
    split at h <;> simp_all

theorem escList_head_ne (l : List Char) (b : Char) (t : List Char)
    (h : escList l = b :: t) : b ≠ '\x27' := by
  cases l with
  | nil => simp [escList] at h
  | cons c rest =>
    simp only [escList] at h
    by_cases hc : c = '\x27'
    · rw [if_pos hc] at h
      cases h
      decide
    · rw [if_neg hc] at h
      cases h
      exact hc

theorem unescList_escList (l : List Char) : unescList (escList l) = l := by
  induction l with
  | nil => rfl
  | cons c rest ih =>
    by_cases hc : c = '\x27'
    · subst hc
      simp only [escList, if_pos rfl, unescList, ih, and_self, if_pos]
    · simp only [escList, if_neg hc]
      cases hr : escList rest with
      | nil =>
        have : rest = [] := escList_eq_nil rest hr
        subst this
        rfl
      | cons b t =>
        have hb : b ≠ '\x27' := escList_head_ne rest b t hr
        simp only [unescList]
        rw [if_neg (by rintro ⟨-, h2⟩; exact hb h2), ← hr, ih]

theorem quotesOk_escList (l : List Char) : quotesOk (escList l) = true := by
  induction l with
  | nil => rfl
  | cons c rest ih =>
    by_cases hc : c = '\x27'
    · subst hc
      simp only [escList, if_pos rfl, quotesOk, and_self, if_pos, ih]
    · simp only [escList, if_neg hc]
      cases hr : escList rest with
      | nil => simp [quotesOk, hc]
      | cons b t =>
        have hb : b ≠ '\x27' := escList_head_ne rest b t hr
        simp only [quotesOk]
        rw [if_neg (by rintro ⟨-, h2⟩; exact hb h2)]
        simp only [Bool.and_eq_true, decide_eq_true_eq]
        exact ⟨hc, by rw [← hr]; exact ih⟩

/-- C6: escaping a search term escapes each embedded single quote (in the
escaped output every quote is immediately preceded by a backslash, so the
emitted single-quoted formula literal stays well-formed), and un-escaping
the escaped term recovers the original term exactly, for every string. -/
theorem c6_escape_quotes_round_trip (s : String) :
    unescapeQuotes (escapeQuotes s) = s ∧ quotesOk (escapeQuotes s).data = true := by
  refine ⟨?_, quotesOk_escList s.data⟩
  show String.mk (unescList (escList s.data)) = s
  rw [unescList_escList]

/-! ## C5 — filter composition of the query builder -/

theorem strAppend_assoc (a b c : String) : a ++ b ++ c = a ++ (b ++ c) := by
  cases a; cases b; cases c
  show String.mk _ = String.mk _
  simp [List.append_assoc]

theorem joinComma_mem_split (c : String) (l : List String) (h : c ∈ l) :
    ∃ pre post, joinComma l = pre ++ c ++ post := by
  induction l with
  | nil => cases h
  | cons s rest ih =>
    cases rest with
    | nil =>
      have hc : c = s := by simpa using h
      subst hc
      exact ⟨"", "", by simp [joinComma]⟩
    | cons s2 rest2 =>
      rcases List.mem_cons.mp h with rfl | h2
      · exact ⟨"", "," ++ joinComma (s2 :: rest2), by simp [joinComma, strAppend_assoc]⟩
      · obtain ⟨pre, post, hsplit⟩ := ih h2
        refine ⟨s ++ "," ++ pre, post, ?_⟩
        simp only [joinComma, hsplit, strAppend_assoc]

/-- C5: with zero active filters the query builder returns no filter
expression; with exactly one active filter it returns that clause bare; with
two or more it returns an `AND(...)` expression joining, and hence
containing, every contributed clause. -/
theorem c5_filter_composition (q : ResourceQuery) :
    ((filterParts q).length =
      (if truthyS q.program then 1 else 0) + (if truthyS q.type then 1 else 0) +
      (if q.bookmarked = some "true" then 1 else 0) + (if truthyS q.search then 1 else 0)) ∧
    (filterParts q = [] → buildResourceFilterFormula q = none) ∧
    (∀ c, filterParts q = [c] → buildResourceFilterFormula q = some c) ∧
    (2 ≤ (filterParts q).length →
      buildResourceFilterFormula q = some ("AND(" ++ joinComma (filterParts q) ++ ")") ∧
      ∀ c ∈ filterParts q, ∃ pre post,
        "AND(" ++ joinComma (filterParts q) ++ ")" = pre ++ c ++ post) := by
  refine ⟨?_, ?_, ?_, ?_⟩
  · simp only [filterParts]
    split <;> split <;> split <;> split <;> simp
  · intro h
    simp [buildResourceFilterFormula, h]
  · intro c h
    simp [buildResourceFilterFormula, h]
  · intro h
    rcases hl : filterParts q with - | ⟨a, - | ⟨b, t⟩⟩
    · rw [hl] at h; simp at h
    · rw [hl] at h; simp at h
    · constructor
      · rw [buildResourceFilterFormula, hl]
      · intro c hc
        obtain ⟨pre, post, hsplit⟩ := joinComma_mem_split c (a :: b :: t) (hl ▸ hc)
        refine ⟨"AND(" ++ pre, post ++ ")", ?_⟩
        rw [hsplit]
        simp [strAppend_assoc]

/-- Witness for C5 at a query with two active filters. -/
theorem c5_filter_composition_witness :
    buildResourceFilterFormula q2 =
      some "AND(\x7bProgram\x7d = \x27tmm\x27,\x7bResourceType\x7d = \x27Protocols\x27)" :=
  ((c5_filter_composition q2).2.2.2 (by decide)).1

/-! ## C8 — record mappers are total with literal defaults -/

/-- C8: on any well-formed external record missing every optional field,
each record mapper returns its typed view model filled with the literal
defaults of its fallback chains (`"program"`, `"Clinical Program"`,
`"Layers"`, `"Resource"`, `"general"`, `"Additional Resources"`,
`"Announcement"`, `"Quick Access"`, `"File"`, `"Download"`, empty strings,
empty lists, zero counts, absent optionals) and the record's own id and
created timestamp; the mappers are total Lean functions, so no input can
make them raise. -/
theorem c8_mapper_defaults (id ct : String) :
    mapProgram ⟨id, ct, emptyProgFields⟩ = ⟨"program", "Clinical Program", "", "Layers", 0, ct, 0⟩ ∧
    mapResource ⟨id, ct, emptyResFields⟩ =
      ⟨id, "Resource", "general", "Additional Resources", "", [], none, none, ct, 0, false⟩ ∧
    mapAnnouncement ⟨id, ct, emptyAnnFields⟩ = ⟨id, "Announcement", "", ct, none⟩ ∧
    mapQuickAccess ⟨id, ct, emptyQAFields⟩ = ⟨id, "Quick Access", "", "File", "Download", none⟩ := by
  refine ⟨?_, rfl, rfl, rfl⟩
  simp [mapProgram, emptyProgFields, jsOrD, jsQOr]

/-! ## C7 — attachment URL and size mapping -/

/-- C7 counterexample: the claim fails on the Airtable client's mapping. A
DocumentationForms record with an empty or absent attachment list maps to a
`ResourceItem` whose file URL is the *empty string*, not `undefined`; and a
first attachment whose byte size is `0` maps to an *undefined* `sizeMB`,
although `round(0 / 1048576, 2) = 0`, so the claimed equality
`sizeMB = round(bytes / 1048576, 2)` also fails at size `0`. -/
theorem c7_counterexample :
    (mapFormsItem emptyFormsRec).fileUrl = some "" ∧
    some "" ≠ (none : Option String) ∧
    firstAttachment (some [⟨some "https://x", some 0⟩]) = ("https://x", none) ∧
    round2 (0 / (1024 * 1024)) = 0 ∧
    (firstAttachment (some [⟨some "https://x", some 0⟩])).2 ≠ some (round2 (0 / (1024 * 1024))) := by
  refine ⟨rfl, by decide, rfl, by norm_num [round2], ?_⟩
  have h : (firstAttachment (some [⟨some "https://x", some 0⟩])).2 = none := rfl
  rw [h]
  simp

/-- C7 amended: when the first attachment has a *nonzero* byte size `s`, the
mapped size is `round2 (s / 1048576)` megabytes; a zero or absent size, and
an empty or absent attachment list, yield an undefined size. An empty or
absent attachment list yields the empty-string URL from the client's
`firstAttachment` (and an empty-string — not undefined — file URL on the
mapped item), while the proxy's `firstAttachmentUrl` yields `undefined`;
neither is an error. -/
theorem c7_attachment_mapping :
    (∀ (att : Attachment) (rest : List Attachment) (s : ℚ), att.size = some s → s ≠ 0 →
      (firstAttachment (some (att :: rest))).2 = some (round2 (s / (1024 * 1024)))) ∧
    (∀ (att : Attachment) (rest : List Attachment),
      att.size = some 0 ∨ att.size = none → (firstAttachment (some (att :: rest))).2 = none) ∧
    firstAttachment none = ("", none) ∧
    firstAttachment (some []) = ("", none) ∧
    firstAttachmentUrl none = none ∧
    firstAttachmentUrl (some []) = none ∧
    (∀ r : ExternalRecord FormsFields, r.fields.formFile = none → r.fields.formLink = none →
      (mapFormsItem r).fileUrl = some "" ∧ (mapFormsItem r).sizeMB = none) := by
  refine ⟨?_, ?_, rfl, rfl, rfl, rfl, ?_⟩
  · intro att rest s hs hnz
    simp [firstAttachment, truthyQ, hs, hnz]
  · rintro att rest (h | h) <;> simp [firstAttachment, truthyQ, h]
  · intro r h1 h2
    constructor <;> simp [mapFormsItem, h1, h2, firstAttachment, jsStrOr]

/-- Witness for C7's amended size formula at a 2 MiB attachment. -/
theorem c7_attachment_mapping_witness :
    (firstAttachment (some [⟨some "u", some 2097152⟩])).2 = some (round2 (2097152 / (1024 * 1024))) :=
  c7_attachment_mapping.1 ⟨some "u", some 2097152⟩ [] 2097152 rfl (by norm_num)

/-! ## C10 — configuration errors vs. the facade's mock fallback -/

/-- C10 counterexample: with the environment unconfigured, the facade's
`Api.getResources` does not fail with `CONFIG_ERROR`; it silently returns
the static mock dataset (the real adapter, which would raise the
configuration error, is never consulted). -/
theorem c10_counterexample :
    apiGetResources false (.error configErrEnv) [item0] = .ok [item0] ∧
    (Except.ok [item0] : Except ApiErr (List ResourceItem)) ≠ .error configErrServer := by
  exact ⟨rfl, fun h => Except.noConfusion h⟩

/-- C10 amended: a missing (or empty) API credential or base identifier
makes the proxy server's `airtableRequest` and the Airtable client's
`getRecords` fail with a 500 `CONFIG_ERROR` before any request is issued;
the client facade, however, does not fail — when unconfigured it silently
falls back to the static mock dataset, and only when configured does it
delegate to the real adapter. -/
theorem c10_config_error_surface :
    (∀ (k b : Option String) (resp : Except (Nat × Option String × Option String) (List String)),
      ¬ (truthyS k = true ∧ truthyS b = true) →
      airtableRequest k b resp = .error configErrServer) ∧
    (∀ (k : Option String) (script : List AirResp), truthyS k = false →
      getRecords k script = some (.error configErrEnv, ⟨[], []⟩)) ∧
    (∀ (real : Except ApiErr (List ResourceItem)) (mock : List ResourceItem),
      apiGetResources false real mock = .ok mock) ∧
    (∀ (real : Except ApiErr (List ResourceItem)) (mock : List ResourceItem),
      apiGetResources true real mock = real) := by
  refine ⟨?_, ?_, fun real mock => rfl, fun real mock => rfl⟩
  · intro k b resp h
    have hc : ¬ ((truthyS k && truthyS b) = true) := by
      simpa [Bool.and_eq_true] using h
    simp [airtableRequest, hc]
  · intro k script hk
    simp [getRecords, hk, configErrEnv]

/-- Witness for C10's amended configuration gate with a missing credential. -/
theorem c10_config_error_surface_witness :
    airtableRequest none (some "base") (.ok ["x"]) = .error configErrServer :=
  c10_config_error_surface.1 none (some "base") (.ok ["x"]) (by decide)

/-! ## C2 — the facade's login attempt counter -/

theorem runLogins_locked (c : Nat) (hc : c ≥ 5) (l : List (Except ApiErr MemberAccount)) :
    runLogins c l = l.map (fun _ => (.error rateLimitErr, false)) := by
  induction l with
  | nil => rfl
  | cons a rest ih => simp [runLogins, loginStep, hc, ih]

theorem runLogins_failures (fails : List ApiErr) (rest : List (Except ApiErr MemberAccount))
    (c : Nat) (h : c + fails.length ≤ 5) :
    runLogins c (fails.map .error ++ rest) =
      fails.map (fun e => (.error e, true)) ++ runLogins (c + fails.length) rest := by
  induction fails generalizing c with
  | nil => simp
  | cons e fs ih =>
    have hlt : ¬ c ≥ 5 := by simp at h; omega
    simp only [List.map_cons, List.cons_append, runLogins, loginStep, if_neg hlt]
    rw [show (List.map Except.error fs).append rest = List.map Except.error fs ++ rest from rfl]
    rw [ih (c + 1) (by simp at h ⊢; omega)]
    simp only [List.length_cons]
    have : c + 1 + fs.length = c + (fs.length + 1) := by omega
    rw [this]

/-- C2: once the client-local counter has reached 5 consecutive failures,
every subsequent login attempt through the facade is rejected with the
`RATE_LIMIT` (429) error without contacting the backend — even when the
backend would accept the credentials — and the counter is untouched; below
the threshold a successful backend authentication resets the counter to
zero. Concretely, after 5 consecutive failures starting from a zero
counter, every later attempt of the run yields the rate-limit error with
the backend flag `false`. -/
theorem c2_login_rate_limit_gate :
    (∀ (c : Nat) (auth : Except ApiErr MemberAccount), c ≥ 5 →
      loginStep c auth = (.error rateLimitErr, c, false)) ∧
    (∀ (c : Nat) (m : MemberAccount), c < 5 →
      loginStep c (.ok m) = (.ok ⟨"real-jwt-token", m⟩, 0, true)) ∧
    (∀ (fails : List ApiErr) (rest : List (Except ApiErr MemberAccount)), fails.length = 5 →
      runLogins 0 (fails.map .error ++ rest) =
        fails.map (fun e => (.error e, true)) ++ rest.map (fun _ => (.error rateLimitErr, false))) := by
  refine ⟨?_, ?_, ?_⟩
  · intro c auth hc
    simp [loginStep, hc]
  · intro c m hc
    simp [loginStep, Nat.not_le.mpr hc]
  · intro fails rest h5
    rw [runLogins_failures fails rest 0 (by omega)]
    rw [h5]
    simpa using runLogins_locked 5 (by omega) rest

/-- Witness for C2: five failures starting from zero, then a sixth attempt
with correct credentials, which is rejected by the local gate. -/
theorem c2_login_rate_limit_gate_witness :
    runLogins 0 ([e0, e0, e0, e0, e0].map .error ++ [.ok m0]) =
      [e0, e0, e0, e0, e0].map (fun e => (.error e, true)) ++ [(.error rateLimitErr, false)] := by
  have h := c2_login_rate_limit_gate.2.2 [e0, e0, e0, e0, e0] [.ok m0] rfl
  simpa using h

/-! ## C4 — rate-limit handling of the paginated fetcher -/

/-- C4: when a page request receives an HTTP 429 response, the fetcher logs
a sleep of the advised `Retry-After` delay (in milliseconds; 1 second when
the header is absent) and reissues the request with the *same* continuation
token and the *same* accumulated records — it neither advances to the next
page nor drops the current one. In particular, a 429 followed by a
successful final page yields exactly that page's records (no duplicate, no
missing record), two requests with identical tokens, and the single sleep. -/
theorem c4_rate_limit_same_page (off : Option String) (ra : Option Nat) (msg ty : Option String)
    (rest : List AirResp) (acc : List AirRec) :
    getRecordsGo off (.failure 429 ra msg ty :: rest) acc =
      (getRecordsGo off rest acc).map
        (fun t => (t.1, ⟨off :: t.2.requests, ra.getD 1 * 1000 :: t.2.sleepsMs⟩)) ∧
    (∀ recs : List AirRec,
      getRecordsGo off [.failure 429 ra msg ty, .success ⟨recs, none⟩] acc =
        some (.ok (acc ++ recs), ⟨[off, off], [ra.getD 1 * 1000]⟩)) := by
  constructor
  · cases h : getRecordsGo off rest acc with
    | none => simp [getRecordsGo, h]
    | some t => simp [getRecordsGo, h]
  · intro recs
    simp [getRecordsGo, truthyS]

/-! ## C3 — pagination concatenates pages in arrival order -/

theorem getRecordsGo_pages (init : List PageOk) (last : PageOk)
    (hinit : ∀ p ∈ init, truthyS p.offset = true) (hlast : truthyS last.offset = false) :
    ∀ (off : Option String) (acc : List AirRec),
    getRecordsGo off ((init ++ [last]).map .success) acc =
      some (.ok (acc ++ ((init ++ [last]).map (·.records)).flatten),
            ⟨off :: init.map (·.offset), []⟩) := by
  induction init with
  | nil =>
    intro off acc
    simp only [List.nil_append, List.map_cons, List.map_nil, getRecordsGo]
    rw [if_neg (by simp [hlast])]
    simp
  | cons p ps ih =>
    intro off acc
    have hp : truthyS p.offset = true := hinit p (List.mem_cons_self p ps)
    simp only [List.cons_append, List.map_cons, getRecordsGo]
    rw [if_pos (by simp [hp])]
    rw [show List.map AirResp.success (ps.append [last]) = List.map AirResp.success (ps ++ [last]) from rfl]
    rw [ih (fun x hx => hinit x (List.mem_cons_of_mem p hx)) p.offset (acc ++ p.records)]
    simp [List.append_assoc]

/-- C3: given a response script of successful pages in which every page but
the last carries a (truthy) continuation token and the last does not,
`getRecords` returns the concatenation of all pages' records in arrival
order, performs no sleep, and issues exactly one request per page — the
first with no token and each subsequent request echoing the previous page's
token. -/
theorem c3_pagination_concat (key : Option String) (init : List PageOk) (last : PageOk)
    (hk : truthyS key = true)
    (hinit : ∀ p ∈ init, truthyS p.offset = true) (hlast : truthyS last.offset = false) :
    getRecords key ((init ++ [last]).map .success) =
      some (.ok (((init ++ [last]).map (·.records)).flatten),
            ⟨none :: init.map (·.offset), []⟩) ∧
    (none :: init.map (·.offset)).length = (init ++ [last]).length := by
  constructor
  · rw [getRecords, if_neg (by simp [hk])]
    rw [getRecordsGo_pages init last hinit hlast none []]
    simp
  · simp

/-- Witness for C3 on a two-page script. -/
theorem c3_pagination_concat_witness :
    getRecords (some "key") ([page1, page2].map .success) =
      some (.ok [⟨"r1", "t1"⟩, ⟨"r2", "t2"⟩, ⟨"r3", "t3"⟩], ⟨[none, some "tok1"], []⟩) := by
  have h := (c3_pagination_concat (some "key") [page1] page2 (by decide)
    (by intro p hp; simp at hp; subst hp; decide) (by decide)).1
  simpa [page1, page2] using h

/-! ## C1 — member authentication -/

/-- C1 counterexample: the claim fails in both directions at concrete
inputs. First, `recEmptyTemp` stores the e-mail `a@b.com` and an *empty*
temporary password; supplying `a@b.com` with the empty password — which
exactly equals the stored temporary password — still raises
`INVALID_CREDENTIALS`, because the source requires a truthy stored password
(`tempPass && password === tempPass`). Second, the supplied e-mail
`" A@B.com "` equals no stored e-mail case-insensitively (it differs by the
surrounding spaces), so the claim demands `INVALID_CREDENTIALS`; the code
trims the supplied e-mail before matching and authentication succeeds. -/
theorem c1_counterexample :
    authenticateMember (some "k") [recEmptyTemp] "t0" "a@b.com" "" = .error invalidCredErr ∧
    recEmptyTemp.tempPassword = some "" ∧
    lowerStr (recEmptyTemp.email.getD "") = lowerStr "a@b.com" ∧
    authenticateMember (some "k") [recPw] "t0" " A@B.com " "pw123456" =
      .ok (normMember recPw " A@B.com " "t0") ∧
    lowerStr (recPw.email.getD "") ≠ lowerStr " A@B.com " := by
  refine ⟨by decide, rfl, by decide, by decide, by decide⟩

/-- C1 amended: `authenticateMember` (configuration present) trims and
lower-cases the supplied e-mail and matches it case-insensitively against
the stored e-mails; when no record matches it raises `INVALID_CREDENTIALS`
(HTTP 401); when the first matching record's stored temporary password is
non-empty and exactly equals the supplied password it returns the
normalized `MemberAccount`; in every other case (password mismatch, or an
empty/absent stored temporary password) it raises the same
`INVALID_CREDENTIALS` error with HTTP 401. -/
theorem c1_auth_characterization (key : Option String) (table : List MemberRec)
    (nowISO email password : String) (hk : truthyS key = true) :
    match findMember table email with
    | none => authenticateMember key table nowISO email password = .error invalidCredErr
    | some r =>
      if r.tempPassword.getD "" ≠ "" ∧ password = r.tempPassword.getD ""
      then authenticateMember key table nowISO email password = .ok (normMember r email nowISO)
      else authenticateMember key table nowISO email password = .error invalidCredErr := by
  cases h : findMember table email with
  | none => simp [authenticateMember, hk, h]
  | some r =>
    show if r.tempPassword.getD "" ≠ "" ∧ password = r.tempPassword.getD ""
      then authenticateMember key table nowISO email password = .ok (normMember r email nowISO)
      else authenticateMember key table nowISO email password = .error invalidCredErr
    by_cases hp : r.tempPassword.getD "" ≠ "" ∧ password = r.tempPassword.getD ""
    · rw [if_pos hp]
      simp [authenticateMember, hk, h, hp]
    · rw [if_neg hp]
      simp [authenticateMember, hk, h, hp]

/-- Witness for C1's amended characterization: a correct login against a
stored record succeeds with the normalized account. -/
theorem c1_auth_characterization_witness :
    authenticateMember (some "k") [recPw] "t0" "a@b.com" "pw123456" =
      .ok (normMember recPw "a@b.com" "t0") := by
  have h := c1_auth_characterization (some "k") [recPw] "t0" "a@b.com" "pw123456" (by decide)
  rw [show findMember [recPw] "a@b.com" = some recPw from by decide] at h
  have h2 : if recPw.tempPassword.getD "" ≠ "" ∧ "pw123456" = recPw.tempPassword.getD ""
      then authenticateMember (some "k") [recPw] "t0" "a@b.com" "pw123456" =
        .ok (normMember recPw "a@b.com" "t0")
      else authenticateMember (some "k") [recPw] "t0" "a@b.com" "pw123456" =
        .error invalidCredErr := h
  rw [if_pos (by decide)] at h2
  exact h2

/-! ## C9 — the comparator sort of `getResources` is a stable sort by the
requested key -/

/-- Kind (string vs. numeric) of a sort key. -/
def isStrK : SKey → Bool
  | .str _ => true
  | .num _ => false

theorem keyOf_same_kind (sortBy : String) (a b : ResourceItem) :
    isStrK (keyOf sortBy a) = isStrK (keyOf sortBy b) := by
  unfold keyOf
  split_ifs <;> rfl

theorem skLT_irrefl (k : SKey) : skLT k k = false := by
  cases k <;> simp [skLT]

theorem cmpOrd_trans {B : Type} [LinearOrder B] (ord : Int) (hord : ord = 1 ∨ ord = -1)
    (x y z : B) (h1 : cmpOrd ord x y ≤ 0) (h2 : cmpOrd ord y z ≤ 0) :
    cmpOrd ord x z ≤ 0 := by
  unfold cmpOrd at h1 h2 ⊢
  rcases hord with rfl | rfl
  · have hyx : ¬ y < x := by
      intro hlt
      rw [if_neg (by exact fun h => absurd hlt h.asymm), if_pos hlt] at h1
      norm_num at h1
    have hzy : ¬ z < y := by
      intro hlt
      rw [if_neg (by exact fun h => absurd hlt h.asymm), if_pos hlt] at h2
      norm_num at h2
    have hzx : ¬ z < x := fun hlt => hzy (lt_of_lt_of_le hlt (not_lt.mp hyx))
    rw [if_neg hzx]
    split_ifs <;> norm_num
  · have hxy : ¬ x < y := by
      intro hlt
      rw [if_pos hlt] at h1
      norm_num at h1
    have hyz : ¬ y < z := by
      intro hlt
      rw [if_pos hlt] at h2
      norm_num at h2
    have hxz : ¬ x < z := fun hlt => hxy (lt_of_lt_of_le hlt (not_lt.mp hyz))
    rw [if_neg hxz]
    split_ifs <;> norm_num

theorem cmpOrd_total {B : Type} [LinearOrder B] (ord : Int) (hord : ord = 1 ∨ ord = -1) (x y : B) :
    cmpOrd ord x y ≤ 0 ∨ cmpOrd ord y x ≤ 0 := by
  unfold cmpOrd
  rcases hord with rfl | rfl <;> rcases lt_trichotomy x y with h | h | h
  · left
    rw [if_pos h]
    norm_num
  · subst h
    left
    simp [lt_irrefl]
  · right
    rw [if_pos h]
    norm_num
  · right
    rw [if_neg h.asymm, if_pos h]
    norm_num
  · subst h
    left
    simp [lt_irrefl]
  · left
    rw [if_neg h.asymm, if_pos h]
    norm_num

theorem cmpItems_eq_str (sortBy : String) (ord : Int) (a b : ResourceItem) (x y : String)
    (ha : keyOf sortBy a = .str x) (hb : keyOf sortBy b = .str y) :
    cmpItems sortBy ord a b = cmpOrd ord x y := by
  unfold cmpItems cmpOrd
  rw [ha, hb]
  by_cases h1 : x < y
  · rw [if_pos (show (skLT (SKey.str x) (SKey.str y) : Bool) = true by simp [skLT, h1]),
      if_pos h1]
  · by_cases h2 : y < x
    · rw [if_neg (show ¬ ((skLT (SKey.str x) (SKey.str y) : Bool) = true) by simp [skLT, h1]),
        if_pos (show (skLT (SKey.str y) (SKey.str x) : Bool) = true by simp [skLT, h2]),
        if_neg h1, if_pos h2]
    · rw [if_neg (show ¬ ((skLT (SKey.str x) (SKey.str y) : Bool) = true) by simp [skLT, h1]),
        if_neg (show ¬ ((skLT (SKey.str y) (SKey.str x) : Bool) = true) by simp [skLT, h2]),
        if_neg h1, if_neg h2]

theorem cmpItems_eq_num (sortBy : String) (ord : Int) (a b : ResourceItem) (x y : ℚ)
    (ha : keyOf sortBy a = .num x) (hb : keyOf sortBy b = .num y) :
    cmpItems sortBy ord a b = cmpOrd ord x y := by
  unfold cmpItems cmpOrd
  rw [ha, hb]
  by_cases h1 : x < y
  · rw [if_pos (show (skLT (SKey.num x) (SKey.num y) : Bool) = true by simp [skLT, h1]),
      if_pos h1]
  · by_cases h2 : y < x
    · rw [if_neg (show ¬ ((skLT (SKey.num x) (SKey.num y) : Bool) = true) by simp [skLT, h1]),
        if_pos (show (skLT (SKey.num y) (SKey.num x) : Bool) = true by simp [skLT, h2]),
        if_neg h1, if_pos h2]
    · rw [if_neg (show ¬ ((skLT (SKey.num x) (SKey.num y) : Bool) = true) by simp [skLT, h1]),
        if_neg (show ¬ ((skLT (SKey.num y) (SKey.num x) : Bool) = true) by simp [skLT, h2]),
        if_neg h1, if_neg h2]

theorem key_kind_clash (sortBy : String) (a b : ResourceItem) (x : String) (y : ℚ)
    (ha : keyOf sortBy a = .str x) (hb : keyOf sortBy b = .num y) : False := by
  have h := keyOf_same_kind sortBy a b
  rw [ha, hb] at h
  simp [isStrK] at h

theorem sortLE_trans (sortBy : String) (ord : Int) (hord : ord = 1 ∨ ord = -1)
    (a b c : ResourceItem) (hab : sortLE sortBy ord a b = true)
    (hbc : sortLE sortBy ord b c = true) : sortLE sortBy ord a c = true := by
  rw [sortLE, decide_eq_true_eq] at hab hbc ⊢
  rcases hka : keyOf sortBy a with x | x <;> rcases hkb : keyOf sortBy b with y | y <;>
    rcases hkc : keyOf sortBy c with z | z
  · rw [cmpItems_eq_str sortBy ord a b x y hka hkb] at hab
    rw [cmpItems_eq_str sortBy ord b c y z hkb hkc] at hbc
    rw [cmpItems_eq_str sortBy ord a c x z hka hkc]
    exact cmpOrd_trans ord hord x y z hab hbc
  · exact absurd (key_kind_clash sortBy b c y z hkb hkc) (by simp)
  · exact absurd (key_kind_clash sortBy a b x y hka hkb) (by simp)
  · exact absurd (key_kind_clash sortBy a b x y hka hkb) (by simp)
  · exact absurd (key_kind_clash sortBy b a y x hkb hka) (by simp)
  · exact absurd (key_kind_clash sortBy b a y x hkb hka) (by simp)
  · exact absurd (key_kind_clash sortBy c b z y hkc hkb) (by simp)
  · rw [cmpItems_eq_num sortBy ord a b x y hka hkb] at hab
    rw [cmpItems_eq_num sortBy ord b c y z hkb hkc] at hbc
    rw [cmpItems_eq_num sortBy ord a c x z hka hkc]
    exact cmpOrd_trans ord hord x y z hab hbc

theorem sortLE_total (sortBy : String) (ord : Int) (hord : ord = 1 ∨ ord = -1)
    (a b : ResourceItem) : (sortLE sortBy ord a b || sortLE sortBy ord b a) = true := by
  rw [Bool.or_eq_true, sortLE, sortLE, decide_eq_true_eq, decide_eq_true_eq]
  rcases hka : keyOf sortBy a with x | x <;> rcases hkb : keyOf sortBy b with y | y
  · rw [cmpItems_eq_str sortBy ord a b x y hka hkb, cmpItems_eq_str sortBy ord b a y x hkb hka]
    exact cmpOrd_total ord hord x y
  · exact absurd (key_kind_clash sortBy a b x y hka hkb) (by simp)
  · exact absurd (key_kind_clash sortBy b a y x hkb hka) (by simp)
  · rw [cmpItems_eq_num sortBy ord a b x y hka hkb, cmpItems_eq_num sortBy ord b a y x hkb hka]
    exact cmpOrd_total ord hord x y

theorem sortLE_of_key_eq (sortBy : String) (ord : Int) (a b : ResourceItem)
    (h : keyOf sortBy a = keyOf sortBy b) : sortLE sortBy ord a b = true := by
  rw [sortLE, decide_eq_true_eq]
  unfold cmpItems
  rw [h, skLT_irrefl]
  simp

/-- C9: `getResources` sorts the filtered items with the comparator over the
requested key (`sortBy` defaulting to `name`, direction defaulting to
ascending): the output is a permutation of the filtered items, it is sorted
under the comparator's "may precede" relation, and the sort is stable —
any two filtered items whose sort keys are equal keep the relative order
they had in the concatenated input. -/
theorem c9_stable_sort (fl : GetResourcesFilters) (items : List ResourceItem) :
    (getResourcesPure fl items).Perm (applyFilters fl items) ∧
    (getResourcesPure fl items).Pairwise
      (fun a b => sortLE (resolvedSortBy fl) (resolvedOrd fl) a b = true) ∧
    (∀ a b : ResourceItem, ([a, b]).Sublist (applyFilters fl items) →
      keyOf (resolvedSortBy fl) a = keyOf (resolvedSortBy fl) b →
      ([a, b]).Sublist (getResourcesPure fl items)) := by
  have hord : resolvedOrd fl = 1 ∨ resolvedOrd fl = -1 := by
    unfold resolvedOrd
    split_ifs <;> simp
  refine ⟨List.mergeSort_perm _ _, ?_, ?_⟩
  · exact List.sorted_mergeSort
      (fun a b c => sortLE_trans (resolvedSortBy fl) (resolvedOrd fl) hord a b c)
      (fun a b => sortLE_total (resolvedSortBy fl) (resolvedOrd fl) hord a b)
      (applyFilters fl items)
  · intro a b hsub hkey
    exact List.pair_sublist_mergeSort
      (fun a b c => sortLE_trans (resolvedSortBy fl) (resolvedOrd fl) hord a b c)
      (fun a b => sortLE_total (resolvedSortBy fl) (resolvedOrd fl) hord a b)
      (sortLE_of_key_eq (resolvedSortBy fl) (resolvedOrd fl) a b hkey) hsub

/-- Witness for C9: two equal-keyed items keep their input order through an
unfiltered, default-sorted `getResources`. -/
theorem c9_stable_sort_witness : ([itemA, itemB]).Sublist (getResourcesPure fl0 [itemA, itemB]) := by
  apply (c9_stable_sort fl0 [itemA, itemB]).2.2
  · exact List.Sublist.refl _
  · rfl
